import Mathlib

/-!
Verification of the `pc_jamf` client library (`src/pc_jamf/__init__.py`)
against its natural-language specification.

The embedding mirrors the Python source. JSON payloads are modelled by
`JValue`; a Python `dict` appears as an association list whose insertion
order matches Python's, and `dict.update` is modelled by `dictUpdate`.
Fallible Python code (KeyError, TypeError, AttributeError, explicit
`raise`) is modelled with `Except String`.
-/

namespace PCJamf

/-- A JSON value as produced by `response.json()`. `num` carries integers,
which suffices for the fields this development touches. -/
inductive JValue where
  | null : JValue
  | bool : Bool → JValue
  | num : Int → JValue
  | str : String → JValue
  | arr : List JValue → JValue
  | obj : List (String × JValue) → JValue
deriving Repr

/-- A value is a scalar when it is neither a Python `list` nor a `dict`
(the `isinstance(v, (list, dict))` tests in the source). -/
def isScalar : JValue → Bool
  | .arr _ => false
  | .obj _ => false
  | _ => true

/-- Python truthiness of a JSON value (`if not x`). -/
def jTruthy : JValue → Bool
  | .null => false
  | .bool b => b
  | .num n => n != 0
  | .str s => s ≠ ""
  | .arr xs => !xs.isEmpty
  | .obj fs => !fs.isEmpty

/-- `x.items()`: succeeds on a dict, raises `AttributeError` otherwise. -/
def jItems : JValue → Except String (List (String × JValue))
  | .obj fs => .ok fs
  | _ => .error "AttributeError: items"

/-- `x[k]` subscripting: `KeyError` when the key is absent from a dict,
`TypeError` when `x` is not a dict. -/
def jIndex : JValue → String → Except String JValue
  | .obj fs, k =>
    match fs.find? (fun p => p.1 == k) with
    | some p => .ok p.2
    | none => .error ("KeyError: " ++ k)
  | .arr _, _ => .error "TypeError: list indices must be integers"
  | _, _ => .error "TypeError: value is not subscriptable"

/-- `k in x` for a dict (`"location" in extended_device_info`). -/
def jHasKey : JValue → String → Bool
  | .obj fs, k => fs.any (fun p => p.1 == k)
  | _, _ => false

/-- Python `len(x)`: defined for lists, dicts and strings. -/
def jLen : JValue → Except String Int
  | .arr xs => .ok xs.length
  | .obj fs => .ok fs.length
  | .str s => .ok s.length
  | _ => .error "TypeError: object has no len"

/-- Python `==` between two JSON scalars (used by `in` membership tests);
values of different shapes compare unequal. -/
def pyEqJ : JValue → JValue → Bool
  | .str a, .str b => a == b
  | .num a, .num b => a == b
  | .bool a, .bool b => a == b
  | .null, .null => true
  | _, _ => false

/-- Setting one key of a Python dict: replace in place when present,
append otherwise (Python's insertion-order semantics). -/
def dictSet (d : List (String × JValue)) (k : String) (v : JValue) :
    List (String × JValue) :=
  if d.any (fun p => p.1 == k) then
    d.map (fun p => if p.1 == k then (k, v) else p)
  else
    d ++ [(k, v)]

/-- `d.update(kvs)` for Python dicts. -/
def dictUpdate (d : List (String × JValue)) :
    List (String × JValue) → List (String × JValue)
  | [] => d
  | kv :: rest => dictUpdate (dictSet d kv.1 kv.2) rest

/-- Evaluation of a Python list comprehension whose body may raise:
the first raised error aborts the whole comprehension. -/
def mapExcept {α β : Type} (f : α → Except String β) :
    List α → Except String (List β)
  | [] => .ok []
  | x :: xs =>
    match f x with
    | .error e => .error e
    | .ok y =>
      match mapExcept f xs with
      | .error e => .error e
      | .ok ys => .ok (y :: ys)

/-!  `device_flattened` (src/pc_jamf/__init__.py lines 309-352), split by
its three update blocks.  The function receives the parsed detail record
(`extended_device_info`, the result of `self.device(device_id, detail=True)`). -/

/-- The first block of `device_flattened`: copy every scalar top-level
field of the detail record into the fresh `device` dict. -/
def flattenTop (fs : List (String × JValue)) : List (String × JValue) :=
  dictUpdate [] (fs.filter (fun p => isScalar p.2))

/-- The `location` block of `device_flattened`: scalar fields are copied
as `location_<k>`; dict/list fields contribute `location_<k>_name`
holding `v["name"]`. -/
def flattenLocation (device : List (String × JValue)) (info : JValue) :
    Except String (List (String × JValue)) :=
  if jHasKey info "location" then
    match jIndex info "location" with
    | .error e => .error e
    | .ok loc =>
      match jItems loc with
      | .error e => .error e
      | .ok locFs =>
        let device := dictUpdate device
          ((locFs.filter (fun p => isScalar p.2)).map
            (fun p => ("location_" ++ p.1, p.2)))
        match mapExcept (fun p =>
            match jIndex p.2 "name" with
            | .error e => .error e
            | .ok n => .ok ("location_" ++ p.1 ++ "_name", n))
          (locFs.filter (fun p => !isScalar p.2)) with
        | .error e => .error e
        | .ok names => .ok (dictUpdate device names)
  else .ok device

/-- The `ios` block of `device_flattened`: scalar fields copied verbatim,
a derived `application_count`, and every `network` field copied --- with
no scalar filter --- as `network_<k>`. -/
def flattenIos (device : List (String × JValue)) (info : JValue) :
    Except String (List (String × JValue)) :=
  if jHasKey info "ios" then
    match jIndex info "ios" with
    | .error e => .error e
    | .ok ios =>
      match jItems ios with
      | .error e => .error e
      | .ok iosFs =>
        let device := dictUpdate device (iosFs.filter (fun p => isScalar p.2))
        match jIndex ios "applications" with
        | .error e => .error e
        | .ok apps =>
          match jLen apps with
          | .error e => .error e
          | .ok n =>
            let device := dictSet device "application_count" (.num n)
            match jIndex ios "network" with
            | .error e => .error e
            | .ok net =>
              match jItems net with
              | .error e => .error e
              | .ok netFs =>
                .ok (dictUpdate device
                  (netFs.map (fun p => ("network_" ++ p.1, p.2))))
  else .ok device

/-- `device_flattened`, as a pure function of the fetched detail record. -/
def device_flattened (info : JValue) : Except String (List (String × JValue)) :=
  match jItems info with
  | .error e => .error e
  | .ok fs =>
    match flattenLocation (flattenTop fs) info with
    | .error e => .error e
    | .ok device => flattenIos device info

/-!  HTTP responses.  An `httpx` response is modelled by its status code,
the result of `r.json()` (which raises when the body is not JSON) and the
raw `r.text`.  Network endpoints appear as oracle functions from the
requested URL to a response. -/

structure HttpResponse where
  status : Nat
  json : Except String JValue
  text : String

def MOBILE_DEVICE_ENDPOINT : String := "v2/mobile-devices"

/-- The URL requested by `device()` (lines 180-195): the endpoint plus the
device id, with a `/detail` suffix when `detail` is set. -/
def device_url (device_id : String) (detail : Bool) : String :=
  let url := MOBILE_DEVICE_ENDPOINT ++ "/" ++ device_id
  if detail then url ++ "/detail" else url

/-- `device(device_id, detail)`: returns the parsed body when the status
is below 400 and `None` (here `Option.none`) otherwise. -/
def device (fetch : String → HttpResponse) (device_id : String)
    (detail : Bool) : Except String (Option JValue) :=
  let r := fetch (device_url device_id detail)
  if r.status < 400 then (r.json).map some else .ok none

/-- `wipe_device` (lines 228-240): POST to the legacy erase endpoint;
any status other than 201 yields the sentinel string, 201 yields the
response text. -/
def wipe_device (cr : HttpResponse) : String :=
  if cr.status ≠ 201 then "Unable to wipe device" else cr.text

set_option linter.unusedVariables false in
/-- The URL requested by `get_configuration_profile` (lines 404-411).
The second string literal of the source is not an f-string, so the text
`{configuration_profile_id}` is appended verbatim and the
`configuration_profile_id` argument is never interpolated. -/
def get_configuration_profile_url (jamf_server : String)
    (configuration_profile_id : Int) : String :=
  jamf_server ++ "JSSResource/mobiledeviceconfigurationprofiles/id/"
    ++ "{configuration_profile_id}"

/-!  The session state (`__init__`, `authenticated`, `invalidate`).
Python instance attributes can be removed with `del`, after which access
raises `AttributeError`; `PyAttr` distinguishes a deleted attribute, an
attribute set to `None`, and an attribute holding a value. -/

inductive PyAttr (α : Type) where
  | absent : PyAttr α
  | pynone : PyAttr α
  | val : α → PyAttr α
deriving DecidableEq, Repr

/-- The REST-session state relevant to invalidation: `self.token`,
`self.auth_expiration` (timestamps as integers) and
`self.session.headers`. -/
structure Session where
  token : PyAttr String
  auth_expiration : PyAttr Int
  headers : List (String × String)
deriving DecidableEq, Repr

/-- The session as left by `__init__` (lines 82-94): token and expiry set
to `None`, only the `Accept` header installed. -/
def freshSession : Session :=
  { token := .pynone, auth_expiration := .pynone,
    headers := [("Accept", "application/json")] }

/-- The `authenticated` property (lines 123-131):
`self.token and self.auth_expiration > datetime.now()`.  The result is
the truthiness of the returned Python value; accessing a deleted
attribute raises `AttributeError`, comparing `None > datetime` raises
`TypeError`. -/
def authenticated (s : Session) (now : Int) : Except String Bool :=
  match s.token with
  | .absent => .error "AttributeError: token"
  | .pynone => .ok false
  | .val tok =>
    if tok = "" then .ok false
    else
      match s.auth_expiration with
      | .absent => .error "AttributeError: auth_expiration"
      | .pynone => .error "TypeError: not supported between NoneType and datetime"
      | .val exp => .ok (decide (now < exp))

/-- `del headers[k]`: removes the header, `KeyError` when absent. -/
def delHeader (hs : List (String × String)) (k : String) :
    Except String (List (String × String)) :=
  if hs.any (fun p => p.1 == k) then .ok (hs.filter (fun p => p.1 ≠ k))
  else .error "KeyError"

/-- Result of one `invalidate()` call: the returned boolean, the session
state afterwards, and how many network requests were issued. -/
structure InvalidateOutcome where
  result : Bool
  state : Session
  networkCalls : Nat
deriving DecidableEq, Repr

/-- `invalidate` (lines 358-366).  `status` is the response status of the
POST to the invalidation endpoint (only consulted when the call is made).
On a sub-400 status the source runs `del self.session.headers["Accept"]`,
`del self.token` and `del self.auth_expiration`. -/
def invalidate (s : Session) (now : Int) (status : Nat) :
    Except String InvalidateOutcome :=
  match authenticated s now with
  | .error e => .error e
  | .ok false => .ok ⟨true, s, 0⟩
  | .ok true =>
    if status < 400 then
      match delHeader s.headers "Accept" with
      | .error e => .error e
      | .ok hs =>
        .ok ⟨true, { token := .absent, auth_expiration := .absent, headers := hs }, 1⟩
    else .ok ⟨false, s, 1⟩

/-!  XML documents (`xml.etree.ElementTree`).  An element has a tag, an
optional text and a list of children. -/

inductive XmlElement where
  | mk (tag : String) (text : Option String) (children : List XmlElement)
deriving Repr

def XmlElement.tag : XmlElement → String
  | .mk t _ _ => t

def XmlElement.text : XmlElement → Option String
  | .mk _ t _ => t

def XmlElement.children : XmlElement → List XmlElement
  | .mk _ _ c => c

mutual
/-- All strict descendants of an element, in document (preorder) order;
the element itself is not included, matching `findall(".//...")`. -/
def strictDescendants : XmlElement → List XmlElement
  | .mk _ _ cs => descList cs

def descList : List XmlElement → List XmlElement
  | [] => []
  | c :: rest => c :: (strictDescendants c ++ descList rest)
end

/-- `root.findall(".//exclusions/mobile_devices")`: the `mobile_devices`
children of every strict-descendant element tagged `exclusions`, in
document order. -/
def exclusionsMobileDevicesList (root : XmlElement) : List XmlElement :=
  ((strictDescendants root).filter (fun e => e.tag == "exclusions")).flatMap
    (fun e => e.children.filter (fun c => c.tag == "mobile_devices"))

/-!  `change_device_configuration_profile_exclusion` (lines 368-402).
The `device_id` parameter is annotated `int` in the source but Python
does not enforce it, so it is modelled as a Python value. -/

/-- A Python scalar as it occurs in the exclusion logic: the `device_id`
argument (an `int` per the annotation), or an element's `.text`
(a `str`, or `None` for an empty element). -/
inductive PyVal where
  | int : Int → PyVal
  | str : String → PyVal
  | noneVal : PyVal
deriving DecidableEq, Repr

/-- Python `str(x)`. -/
def pyStr : PyVal → String
  | .int n => toString n
  | .str s => s
  | .noneVal => "None"

/-- Python membership `x in texts` where `texts` are the `.text` values of
`id` elements: `in` tests `==` against each element, and an `int` never
compares equal to a `str` or to `None`. -/
def pyInTextList (x : PyVal) (texts : List (Option String)) : Bool :=
  texts.any (fun t =>
    match x, t with
    | .str s, some u => s == u
    | .noneVal, none => true
    | _, _ => false)

mutual
/-- Functional in-place update: replace the first (document-order)
`mobile_devices` child of an `exclusions` element by `new`, mirroring the
aliasing mutation of `excluded_devices` inside the parsed `root`.
Returns `none` when no such node exists in the subtree below `e`. -/
def replaceAt (new : XmlElement) : XmlElement → Option XmlElement
  | .mk tag text cs =>
    if tag == "exclusions" && cs.any (fun c => c.tag == "mobile_devices") then
      some (.mk tag text (replaceFirstMD new cs))
    else
      (replaceAtList new cs).map (fun cs2 => .mk tag text cs2)

def replaceFirstMD (new : XmlElement) : List XmlElement → List XmlElement
  | [] => []
  | c :: rest =>
    if c.tag == "mobile_devices" then new :: rest
    else c :: replaceFirstMD new rest

def replaceAtList (new : XmlElement) : List XmlElement → Option (List XmlElement)
  | [] => none
  | c :: rest =>
    match replaceAt new c with
    | some c2 => some (c2 :: rest)
    | none =>
      match replaceAtList new rest with
      | some rest2 => some (c :: rest2)
      | none => none
end

/-- Replace the first `.//exclusions/mobile_devices` match inside `root`
(the root element itself is not a candidate for the `exclusions` step). -/
def replaceEMDInRoot (new : XmlElement) (root : XmlElement) : XmlElement :=
  match root with
  | .mk t tx cs =>
    match replaceAtList new cs with
    | some cs2 => .mk t tx cs2
    | none => root

/-- `device[k]` on the result of `self.device(device_id)`: subscripting
`None` raises `TypeError`; a missing key raises the `KeyError` that the
source converts into its "device was not properly formed" exception. -/
def deviceField (device : Option JValue) (k : String) : Except String JValue :=
  match device with
  | none => .error "TypeError: NoneType is not subscriptable"
  | some d =>
    match d with
    | .obj fs =>
      match fs.find? (fun p => p.1 == k) with
      | some p => .ok p.2
      | none => .error "Exception: device was not properly formed"
    | _ => .error "TypeError: value is not subscriptable"

/-- An element `.text` assignment requires a string. -/
def jAsText : JValue → Except String String
  | .str s => .ok s
  | _ => .error "TypeError: cannot serialize non-string text"

/-- `update_configuration_profile` (lines 413-422): extract
`./general/id` (IndexError when absent), PUT the serialized tree, succeed
exactly on status 201.  `put_status` is the response status of the PUT. -/
def update_configuration_profile (configuration_profile : XmlElement)
    (put_status : Nat) : Except String Bool :=
  let ids := (configuration_profile.children.filter
      (fun c => c.tag == "general")).flatMap
    (fun g => g.children.filter (fun c => c.tag == "id"))
  match ids.head? with
  | none => .error "IndexError: list index out of range"
  | some _ => .ok (put_status == 201)

/-- Remove the first child satisfying `p` (ET `remove` of the first
matching element found by `findall`). -/
def eraseFirstChild (p : XmlElement → Bool) : List XmlElement → List XmlElement
  | [] => []
  | c :: rest => if p c then rest else c :: eraseFirstChild p rest

/-- What a call to `change_device_configuration_profile_exclusion` left
behind: the returned boolean, the document after the call, and whether
`update_configuration_profile` (the PUT) was invoked. -/
structure ExclusionOutcome where
  result : Bool
  doc : XmlElement
  wrote : Bool
deriving Repr

/-- An exclusion-list `mobile_device` child matches `device_id` when it
has an `id` child whose text is `str(device_id)` (the XPath
`./mobile_device/[id='...']` of the removal branch). -/
def matchesDeviceId (idText : String) (c : XmlElement) : Bool :=
  c.tag == "mobile_device" &&
    c.children.any (fun g => g.tag == "id" && g.text == some idText)

/-- `change_device_configuration_profile_exclusion` (lines 368-402).
`device` is the record returned by `self.device(device_id)`, `root` the
parsed configuration-profile document, `update_status` the status of the
PUT when one happens. -/
def change_device_configuration_profile_exclusion (device : Option JValue)
    (device_id : PyVal) (root : XmlElement) (exclude_device : Bool)
    (update_status : Nat) : Except String ExclusionOutcome :=
  match (exclusionsMobileDevicesList root).head? with
  | none => .error "IndexError: list index out of range"
  | some excluded_devices =>
    let excluded_ids : List (Option String) :=
      (((excluded_devices.children.filter
          (fun c => c.tag == "mobile_device")).flatMap
        (fun md => md.children.filter (fun c => c.tag == "id"))).map
        (fun e => e.text))
    if exclude_device && !(pyInTextList device_id excluded_ids) then
      match deviceField device "name" with
      | .error e => .error e
      | .ok nameV =>
      match jAsText nameV with
      | .error e => .error e
      | .ok nameS =>
      match deviceField device "udid" with
      | .error e => .error e
      | .ok udidV =>
      match jAsText udidV with
      | .error e => .error e
      | .ok udidS =>
      match deviceField device "wifiMacAddress" with
      | .error e => .error e
      | .ok macV =>
      match jAsText macV with
      | .error e => .error e
      | .ok macS =>
        let device_element : XmlElement :=
          .mk "mobile_device" none
            [.mk "id" (some (pyStr device_id)) [],
             .mk "name" (some nameS) [],
             .mk "udid" (some udidS) [],
             .mk "wifi_mac_address" (some macS) []]
        let excluded2 : XmlElement :=
          .mk excluded_devices.tag excluded_devices.text
            (excluded_devices.children ++ [device_element])
        let root2 := replaceEMDInRoot excluded2 root
        match update_configuration_profile root2 update_status with
        | .error e => .error e
        | .ok b => .ok ⟨b, root2, true⟩
    else if !exclude_device then
      let pred := matchesDeviceId (pyStr device_id)
      match (excluded_devices.children.filter pred).head? with
      | none => .ok ⟨true, root, false⟩
      | some _ =>
        let excluded2 : XmlElement :=
          .mk excluded_devices.tag excluded_devices.text
            (eraseFirstChild pred excluded_devices.children)
        let root2 := replaceEMDInRoot excluded2 root
        match update_configuration_profile root2 update_status with
        | .error e => .error e
        | .ok b => .ok ⟨b, root2, true⟩
    else .ok ⟨true, root, false⟩

/-- The number of `mobile_device` nodes in the document's exclusion
subtrees carrying an `id` child with the given text. -/
def countExcludedNodes (root : XmlElement) (idText : String) : Nat :=
  (((exclusionsMobileDevicesList root).flatMap
      (fun ed => ed.children.filter (fun c => c.tag == "mobile_device"))).filter
    (fun md => md.children.any
      (fun g => g.tag == "id" && g.text == some idText))).length

/-!  Prestage scope (lines 459-513).  Version locks and serial numbers
stay `JValue`s, matching the untyped payloads. -/

/-- `x.elems` for iteration: a Python `for` over a non-list here raises. -/
def jElems : JValue → Except String (List JValue)
  | .arr xs => .ok xs
  | _ => .error "TypeError: value is not iterable"

/-- `get_prestage_serials_and_vlock` (lines 480-488): collect
`assignment["serialNumber"]` over `payload["assignments"]` and read
`payload["versionLock"]`. -/
def get_prestage_serials_and_vlock (payload : JValue) :
    Except String (List JValue × JValue) :=
  match jIndex payload "assignments" with
  | .error e => .error e
  | .ok assignments =>
    match jElems assignments with
    | .error e => .error e
    | .ok xs =>
      match mapExcept (fun a => jIndex a "serialNumber") xs with
      | .error e => .error e
      | .ok current_serials =>
        match jIndex payload "versionLock" with
        | .error e => .error e
        | .ok version_lock => .ok (current_serials, version_lock)

/-- The serial-number resolution at the top of `add_device_to_prestage`
(lines 462-463): when `device_id` is truthy and `serial_number` is not,
look up `self.device(device_id)["serialNumber"]`; `device_result` is what
`self.device` returned (possibly `None`). -/
def resolve_prestage_serial (device_id serial_number : JValue)
    (device_result : Option JValue) : Except String JValue :=
  if jTruthy device_id && !(jTruthy serial_number) then
    match device_result with
    | none => .error "TypeError: NoneType is not subscriptable"
    | some d => jIndex d "serialNumber"
  else .ok serial_number

/-- `add_device_to_prestage` (lines 459-469).  The returned list records
every `update_prestage_scope` call with its `(serialNumbers, versionLock)`
payload; `update_status` is the status of the PUT when one happens, and
`update_prestage_scope` returns `status < 400` (lines 490-498). -/
def add_device_to_prestage (device_id serial_number : JValue)
    (device_result : Option JValue) (scope_payload : JValue)
    (update_status : Nat) :
    Except String (Bool × List (List JValue × JValue)) :=
  match resolve_prestage_serial device_id serial_number device_result with
  | .error e => .error e
  | .ok serial =>
    match get_prestage_serials_and_vlock scope_payload with
    | .error e => .error e
    | .ok (current_serials, version_lock) =>
      if current_serials.any (fun c => pyEqJ c serial) then
        .ok (true, [])
      else
        let new_serials := current_serials ++ [serial]
        .ok (decide (update_status < 400), [(new_serials, version_lock)])

/-- The methods defined on the `PCJAMF` class of
`src/pc_jamf/__init__.py`, in source order. -/
def PCJAMF_method_names : List String :=
  ["available", "close", "authenticate", "authenticated", "_url",
   "all_devices", "search_query", "device", "update_device_name",
   "enforce_device_name", "_send_command", "wipe_device",
   "update_inventory", "update_os", "recalculate_smart_groups",
   "clear_location_from_device", "delete_device", "device_flattened",
   "validate", "invalidate",
   "change_device_configuration_profile_exclusion",
   "get_configuration_profile", "update_configuration_profile",
   "update_device", "set_device_room", "get_buildings", "get_building",
   "get_departments", "get_department", "add_device_to_prestage",
   "get_prestage_id_for_device", "get_prestage_serials_and_vlock",
   "update_prestage_scope", "remove_device_from_prestage",
   "strip_extra_location_information", "get_sites", "get_site",
   "get_object_list", "get_object_by_name", "fetch_management_id",
   "flush_mobile_device_commands", "get_all_details", "get_details_async",
   "get_all_details_async"]

/-- The network requests a prestage removal can issue, in order. -/
inductive PrestageOp where
  | deviceRead : PrestageOp
  | globalScopeRead : PrestageOp
  | prestageScopeRead : PrestageOp
  | prestageScopeWrite : PrestageOp
deriving DecidableEq, Repr

/-- `m.get(key)` on a Python dict: `None` when absent or when the key is
not a string; `AttributeError` when `m` is not a dict. -/
def jGetMethod (m : JValue) (key : JValue) : Except String JValue :=
  match m with
  | .obj fs =>
    match key with
    | .str s => .ok ((fs.find? (fun p => p.1 == s)).elim JValue.null (fun p => p.2))
    | _ => .ok JValue.null
  | _ => .error "AttributeError: get"

/-- The tail of `remove_device_from_prestage` from
`get_prestage_id_for_device` onwards (lines 471-478 and 508-513):
`device_result` is the (possibly `None`) record from `self.device`,
`global_scope_payload` the body of the `/scope` listing,
`prestage_scope_payload` the body of the per-prestage scope read. -/
def remove_from_prestage_rest (serial_number : JValue)
    (device_result : Option JValue)
    (global_scope_payload prestage_scope_payload : JValue)
    (update_status : Nat) (trace : List PrestageOp) :
    Except String Bool × List PrestageOp :=
  let trace := trace ++ [.deviceRead]
  match (match device_result with
         | none => Except.error "TypeError: NoneType is not subscriptable"
         | some d => jIndex d "serialNumber") with
  | .error e => (.error e, trace)
  | .ok device_serial =>
    let trace := trace ++ [.globalScopeRead]
    match jIndex global_scope_payload "serialsByPrestageId" with
    | .error e => (.error e, trace)
    | .ok m =>
      match jGetMethod m device_serial with
      | .error e => (.error e, trace)
      | .ok prestage_id =>
        if !(jTruthy prestage_id) then (.ok true, trace)
        else
          let trace := trace ++ [.prestageScopeRead]
          match get_prestage_serials_and_vlock prestage_scope_payload with
          | .error e => (.error e, trace)
          | .ok (current_serials, _version_lock) =>
            let _new_serials :=
              current_serials.filter (fun c => !(pyEqJ c serial_number))
            (.ok (decide (update_status < 400)), trace ++ [.prestageScopeWrite])

/-- `remove_device_from_prestage` (lines 500-513).  Arguments default to
Python `None` (here `JValue.null`); `device_detail_result` is the record
from `self.device(device_id, True)` in the first branch.  The second
branch performs the attribute lookup `self.search_devices`, which raises
`AttributeError` because the class defines no such method. -/
def remove_device_from_prestage (device_id serial_number : JValue)
    (device_detail_result device_result : Option JValue)
    (global_scope_payload prestage_scope_payload : JValue)
    (update_status : Nat) : Except String Bool × List PrestageOp :=
  if jTruthy device_id && !(jTruthy serial_number) then
    match device_detail_result with
    | none => (.error "TypeError: NoneType is not subscriptable", [.deviceRead])
    | some d =>
      match jIndex d "serialNumber" with
      | .error e => (.error e, [.deviceRead])
      | .ok serial =>
        remove_from_prestage_rest serial device_result global_scope_payload
          prestage_scope_payload update_status [.deviceRead]
  else if !(jTruthy device_id) && jTruthy serial_number then
    if PCJAMF_method_names.contains "search_devices" then
      (.error "unreachable: search_devices is not a PCJAMF method", [])
    else
      (.error "AttributeError: PCJAMF object has no attribute search_devices", [])
  else
    remove_from_prestage_rest serial_number device_result global_scope_payload
      prestage_scope_payload update_status []

/-!  Bulk detail fetch (`get_all_details` / `get_details_async`,
lines 566-601).  One request either yields an HTTP response or fails at
the transport layer (e.g. after the transport's retries are exhausted),
which raises out of the awaiting comprehension and aborts the batch. -/

inductive FetchOutcome where
  | resp : HttpResponse → FetchOutcome
  | transportError : String → FetchOutcome

/-- String form of a scalar id as interpolated into the detail URL. -/
def jToUrlPiece : JValue → String
  | .str s => s
  | .num n => toString n
  | .bool b => if b then "True" else "False"
  | .null => "None"
  | _ => "<unprintable>"

/-- The URL requested by `get_details_async` for one device stub. -/
def detail_url (device_id : JValue) : String :=
  MOBILE_DEVICE_ENDPOINT ++ "/" ++ jToUrlPiece device_id ++ "/detail"

/-- `device.get("id")` on a stub: `None` when absent or the stub is not
a dict. -/
def stubGetId (dev : JValue) : JValue :=
  match dev with
  | .obj fs => (fs.find? (fun p => p.1 == "id")).elim JValue.null (fun p => p.2)
  | _ => JValue.null

/-- `get_details_async` (lines 586-596): `ValueError` on a stub without a
truthy `id`; otherwise GET the detail URL, log when the status is not 200
(no effect on the value), and return `r.json()` regardless of status. -/
def get_details_async (fetch : String → FetchOutcome) (dev : JValue) :
    Except String JValue :=
  let device_id := stubGetId dev
  if !(jTruthy device_id) then .error "ValueError: Invalid Device record provided."
  else
    match fetch (detail_url device_id) with
    | .transportError m => .error m
    | .resp r => r.json

/-- `get_all_details` (lines 566-584): fan out one fetch per stub and
join.  `as_completed` yields results out of input order; an exception in
any task propagates out of the awaiting comprehension, so the batch is a
`mapExcept` up to permutation of the successful case. -/
def get_all_details (fetch : String → FetchOutcome) (devices : List JValue) :
    Except String (List JValue) :=
  mapExcept (get_details_async fetch) devices

/-!  Side conditions and concrete inputs used by the claim theorems. -/

/-- Whether the whole result of `device_flattened` consists of scalar
values; vacuously true when the call raises. -/
def flattenAllScalar (info : JValue) : Bool :=
  match device_flattened info with
  | .ok out => out.all (fun p => isScalar p.2)
  | .error _ => true

/-- Condition: every non-scalar value of the detail record's `location`
sub-object has a scalar `name` entry (vacuous when the `location` shape
would make `device_flattened` raise instead). -/
def locNamesScalar (info : JValue) : Bool :=
  match jIndex info "location" with
  | .ok loc =>
    match jItems loc with
    | .ok locFs =>
      (locFs.filter (fun p => !(isScalar p.2))).all (fun p =>
        match jIndex p.2 "name" with
        | .ok n => isScalar n
        | .error _ => true)
    | .error _ => true
  | .error _ => true

/-- Condition: every value of the detail record's `ios.network`
sub-object is scalar (vacuous when the shape would make
`device_flattened` raise instead). -/
def netValuesScalar (info : JValue) : Bool :=
  match jIndex info "ios" with
  | .ok ios =>
    match jIndex ios "network" with
    | .ok net =>
      match jItems net with
      | .ok netFs => netFs.all (fun p => isScalar p.2)
      | .error _ => true
    | .error _ => true
  | .error _ => true

/-- A detail record whose `ios.network` block holds a nested mapping. -/
def nestedNetworkDetail : JValue :=
  .obj [("name", .str "iPad-1"),
        ("ios", .obj
          [("applications", .arr []),
           ("network", .obj [("dataRoaming", .obj [("enabled", .bool true)])])])]

/-- A configuration-profile document whose exclusion list already holds
device id `5`. -/
def profileWithDevice5 : XmlElement :=
  .mk "configuration_profile" none
    [.mk "general" none [.mk "id" (some "12") []],
     .mk "exclusions" none
       [.mk "mobile_devices" none
         [.mk "mobile_device" none
           [.mk "id" (some "5") [], .mk "name" (some "old") [],
            .mk "udid" (some "U1") [],
            .mk "wifi_mac_address" (some "AA:BB") []]]]]

/-- A well-formed device record for device 5. -/
def record5 : Option JValue :=
  some (.obj [("name", .str "iPad"), ("udid", .str "U1"),
              ("wifiMacAddress", .str "AA:BB")])

/-- A freshly authenticated session: token `t`, expiry at time 100,
`Accept` plus bearer headers (the state after `authenticate`). -/
def authedSession : Session :=
  { token := .val "t", auth_expiration := .val 100,
    headers := [("Accept", "application/json"), ("Authorization", "Bearer t")] }

/-- Two device stubs for the bulk-fetch counterexample. -/
def twoStubs : List JValue := [.obj [("id", .num 1)], .obj [("id", .num 2)]]

/-- A transport oracle for which device 2's fetch fails at the transport
layer after its retries are exhausted, while device 1 succeeds. -/
def transportFailsOn2 : String → FetchOutcome := fun u =>
  if u = detail_url (.num 2) then
    .transportError "httpx.ConnectError: all retries exhausted"
  else
    .resp ⟨200, .ok (.obj [("id", .num 1), ("name", .str "a")]), ""⟩

/-- A transport oracle for which device 2's fetch yields an HTTP 500
whose body still parses, while device 1 yields a 200. -/
def softFailOn2 : String → FetchOutcome := fun u =>
  if u = detail_url (.num 2) then
    .resp ⟨500, .ok (.obj [("httpStatus", .num 500)]), ""⟩
  else
    .resp ⟨200, .ok (.obj [("id", .num 1), ("name", .str "a")]), ""⟩

/-- A well-shaped detail record: scalar top-level field, a `location`
with one scalar field and one name-bearing sub-object, an `ios` block
with applications and an all-scalar `network`. -/
def richDetail : JValue :=
  .obj [("name", .str "d"),
        ("location", .obj
          [("room", .str "R"),
           ("building", .obj [("id", .num 1), ("name", .str "B")])]),
        ("ios", .obj
          [("applications", .arr []),
           ("network", .obj [("ipAddress", .str "10.0.0.1")])])]

/-- `device_flattened richDetail`, written out. -/
def richDetailFlattened : List (String × JValue) :=
  [("name", .str "d"), ("location_room", .str "R"),
   ("location_building_name", .str "B"), ("application_count", .num 0),
   ("network_ipAddress", .str "10.0.0.1")]

/-!  Helper lemmas. -/

/-- Every entry of `dictSet d k v` comes from `d` or is the new pair. -/
theorem mem_dictSet {d : List (String × JValue)} {k : String} {v : JValue}
    {kv : String × JValue} (h : kv ∈ dictSet d k v) : kv ∈ d ∨ kv = (k, v) := by
  unfold dictSet at h
  split at h
  · rcases List.mem_map.mp h with ⟨p, hp, he⟩
    by_cases hk : p.1 == k
    · rw [if_pos hk] at he
      exact Or.inr he.symm
    · rw [if_neg hk] at he
      exact Or.inl (he ▸ hp)
  · rcases List.mem_append.mp h with h1 | h1
    · exact Or.inl h1
    · right
      simpa using h1

/-- Every entry of `dictUpdate d kvs` comes from `d` or from `kvs`. -/
theorem mem_dictUpdate {kv : String × JValue} :
    ∀ (kvs d : List (String × JValue)), kv ∈ dictUpdate d kvs → kv ∈ d ∨ kv ∈ kvs
  | [], _, h => Or.inl h
  | p :: rest, d, h => by
    rcases mem_dictUpdate rest (dictSet d p.1 p.2) h with h1 | h1
    · rcases mem_dictSet h1 with h2 | h2
      · exact Or.inl h2
      · right
        rw [h2]
        simp
    · exact Or.inr (List.mem_cons_of_mem _ h1)

/-- Unpacking a successful `mapExcept`: every output comes from applying
`f` to some input. -/
theorem exists_of_mem_mapExcept {α β : Type} {f : α → Except String β} :
    ∀ {xs : List α} {ys : List β}, mapExcept f xs = .ok ys →
      ∀ y ∈ ys, ∃ x ∈ xs, f x = .ok y := by
  intro xs
  induction xs with
  | nil =>
    intro ys h y hy
    simp [mapExcept] at h
    subst h
    simp at hy
  | cons x xs ih =>
    intro ys h y hy
    unfold mapExcept at h
    cases hfx : f x with
    | error e => rw [hfx] at h; cases h
    | ok b =>
      rw [hfx] at h
      cases hrest : mapExcept f xs with
      | error e => rw [hrest] at h; cases h
      | ok bs =>
        rw [hrest] at h
        cases h
        rcases List.mem_cons.mp hy with hy1 | hy1
        · exact ⟨x, List.mem_cons_self x xs, hy1 ▸ hfx⟩
        · rcases ih hrest y hy1 with ⟨x', hx', hfx'⟩
          exact ⟨x', List.mem_cons_of_mem _ hx', hfx'⟩

/-- When `f` succeeds on every input, `mapExcept` succeeds and preserves
the length. -/
theorem mapExcept_ok_of_forall {α β : Type} {f : α → Except String β} :
    ∀ {xs : List α}, (∀ x ∈ xs, ∃ y, f x = .ok y) →
      ∃ ys, mapExcept f xs = .ok ys ∧ ys.length = xs.length := by
  intro xs
  induction xs with
  | nil => intro _; exact ⟨[], rfl, rfl⟩
  | cons x xs ih =>
    intro h
    rcases h x (List.mem_cons_self x xs) with ⟨y, hy⟩
    rcases ih (fun a ha => h a (List.mem_cons_of_mem _ ha)) with ⟨ys, hys, hlen⟩
    refine ⟨y :: ys, ?_, by simp [hlen]⟩
    unfold mapExcept
    rw [hy, hys]

/-- Entries copied by the top-level block of `device_flattened` are
scalar: the block filters on `isScalar`. -/
theorem flattenTop_scalar {fs : List (String × JValue)} {kv : String × JValue}
    (h : kv ∈ flattenTop fs) : isScalar kv.2 = true := by
  rcases mem_dictUpdate _ _ h with h1 | h1
  · cases h1
  · exact (List.mem_filter.mp h1).2

/-- The `location` block preserves all-scalar outputs when every
name-bearing sub-object of `location` has a scalar `name`. -/
theorem flattenLocation_scalar {device d2 : List (String × JValue)}
    {info : JValue}
    (hdev : ∀ kv ∈ device, isScalar kv.2 = true)
    (hn : locNamesScalar info = true)
    (h : flattenLocation device info = .ok d2) :
    ∀ kv ∈ d2, isScalar kv.2 = true := by
  unfold flattenLocation at h
  split at h
  · split at h
    · cases h
    · rename_i loc hloc
      split at h
      · cases h
      · rename_i locFs hitems
        split at h
        · cases h
        · rename_i names hmap
          cases h
          intro kv hkv
          rcases mem_dictUpdate _ _ hkv with h1 | h1
          · rcases mem_dictUpdate _ _ h1 with h2 | h2
            · exact hdev kv h2
            · rcases List.mem_map.mp h2 with ⟨p, hp, he⟩
              have := (List.mem_filter.mp hp).2
              rw [← he]
              exact this
          · -- kv came from the location_<k>_name comprehension
            rcases exists_of_mem_mapExcept hmap kv h1 with ⟨p, hp, hfp⟩
            cases hname : jIndex p.2 "name" with
            | error e => rw [hname] at hfp; cases hfp
            | ok n =>
              rw [hname] at hfp
              cases hfp
              -- hn says this n is scalar
              unfold locNamesScalar at hn
              rw [hloc] at hn
              dsimp only at hn
              rw [hitems] at hn
              dsimp only at hn
              have := List.all_eq_true.mp hn p hp
              rw [hname] at this
              exact this
  · cases h
    intro kv hkv
    exact hdev kv hkv

/-- The `ios` block preserves all-scalar outputs when every `network`
value is scalar. -/
theorem flattenIos_scalar {device d2 : List (String × JValue)} {info : JValue}
    (hdev : ∀ kv ∈ device, isScalar kv.2 = true)
    (hn : netValuesScalar info = true)
    (h : flattenIos device info = .ok d2) :
    ∀ kv ∈ d2, isScalar kv.2 = true := by
  unfold flattenIos at h
  split at h
  · split at h
    · cases h
    · rename_i ios hios
      split at h
      · cases h
      · rename_i iosFs hitems
        split at h
        · cases h
        · rename_i apps happs
          split at h
          · cases h
          · rename_i n hlen
            split at h
            · cases h
            · rename_i net hnet
              split at h
              · cases h
              · rename_i netFs hnitems
                cases h
                intro kv hkv
                rcases mem_dictUpdate _ _ hkv with h1 | h1
                · rcases mem_dictSet h1 with h2 | h2
                  · rcases mem_dictUpdate _ _ h2 with h3 | h3
                    · exact hdev kv h3
                    · exact (List.mem_filter.mp h3).2
                  · rw [h2]
                    rfl
                · rcases List.mem_map.mp h1 with ⟨p, hp, he⟩
                  unfold netValuesScalar at hn
                  rw [hios] at hn
                  dsimp only at hn
                  rw [hnet] at hn
                  dsimp only at hn
                  rw [hnitems] at hn
                  dsimp only at hn
                  have := List.all_eq_true.mp hn p hp
                  rw [← he]
                  exact this
  · cases h
    intro kv hkv
    exact hdev kv hkv

/-!  Claim theorems. -/

/-- Claim C1 (code observation): with the `int`-typed `device_id` of the
signature, re-adding a device whose id text is already in the exclusion
list appends a second `mobile_device` node and performs the PUT, because
the membership test compares the `int` against the `str` id texts and
never matches.  Evaluated at device id 5 against a document already
excluding `"5"`. -/
theorem C1_second_add_duplicates :
    (change_device_configuration_profile_exclusion record5 (PyVal.int 5)
        profileWithDevice5 true 201).map
      (fun o => (countExcludedNodes o.doc "5", o.wrote, o.result)) =
      Except.ok (2, true, true) := rfl

/-- Claim C2 (counterexample): two consecutive `invalidate()` calls on a
freshly authenticated session do not succeed --- the first call deletes
the token attribute, so the second raises `AttributeError` instead of
returning success. -/
theorem C2_counterexample :
    (invalidate authedSession 0 200).bind (fun o => invalidate o.state 0 200) =
      Except.error "AttributeError: token" := rfl

/-- Claim C2 (amended): when the session is not authenticated,
`invalidate()` returns success trivially with no network call and no
state change; but after a first successful invalidation (authenticated
session, sub-400 status) the token attribute has been deleted, so the
second of two consecutive calls raises `AttributeError` rather than
returning success. -/
theorem C2_invalidate_amended (s : Session) (now : Int) (st1 st2 : Nat) :
    (authenticated s now = .ok false → invalidate s now st1 = .ok ⟨true, s, 0⟩) ∧
    (authenticated s now = .ok true → st1 < 400 →
      s.headers.any (fun p => p.1 == "Accept") = true →
      (invalidate s now st1).bind (fun o => invalidate o.state now st2) =
        Except.error "AttributeError: token") := by
  constructor
  · intro h
    unfold invalidate
    rw [h]
  · intro h hst hacc
    have h1 : invalidate s now st1 =
        .ok ⟨true, { token := .absent, auth_expiration := .absent,
                     headers := s.headers.filter (fun p => p.1 ≠ "Accept") }, 1⟩ := by
      unfold invalidate
      rw [h]
      dsimp only
      rw [if_pos hst]
      unfold delHeader
      rw [if_pos hacc]
    rw [h1]
    rfl

theorem C2_invalidate_amended_witness :
    invalidate freshSession 0 200 = .ok ⟨true, freshSession, 0⟩ ∧
    (invalidate authedSession 10 200).bind (fun o => invalidate o.state 10 500) =
      Except.error "AttributeError: token" :=
  ⟨(C2_invalidate_amended freshSession 0 200 200).1 rfl,
   (C2_invalidate_amended authedSession 10 200 500).2 rfl (by decide) rfl⟩

/-- Claim C3 (counterexample): a detail record whose `ios.network` block
holds a nested mapping flattens to an output that still contains a
non-scalar value, because the `network_<k>` comprehension copies values
without a scalar filter. -/
theorem C3_counterexample : flattenAllScalar nestedNetworkDetail = false := rfl

/-- Claim C3 (amended): every value of the mapping produced by
`device_flattened` is scalar, provided the name-bearing `location`
sub-objects have scalar `name` entries and the `ios.network` values are
scalar; without the `network` proviso the output can contain a nested
value. -/
theorem C3_flatten_scalar_amended (info : JValue) (out : List (String × JValue))
    (hloc : locNamesScalar info = true) (hnet : netValuesScalar info = true)
    (hout : device_flattened info = Except.ok out) :
    out.all (fun p => isScalar p.2) = true := by
  unfold device_flattened at hout
  split at hout
  · cases hout
  · rename_i fs hfs
    split at hout
    · cases hout
    · rename_i dev hl
      have h1 : ∀ kv ∈ flattenTop fs, isScalar kv.2 = true :=
        fun _ hkv => flattenTop_scalar hkv
      have h2 := flattenLocation_scalar h1 hloc hl
      have h3 := flattenIos_scalar h2 hnet hout
      exact List.all_eq_true.mpr fun p hp => h3 p hp

theorem C3_flatten_scalar_amended_witness :
    device_flattened richDetail = Except.ok richDetailFlattened ∧
    richDetailFlattened.all (fun p => isScalar p.2) = true :=
  ⟨rfl, C3_flatten_scalar_amended richDetail richDetailFlattened rfl rfl rfl⟩

/-- Claim C4 (counterexample): a transport-level failure (retries
exhausted) on one of two stubs aborts the whole batch with an exception,
so the bulk fetch does not return one result per input stub. -/
theorem C4_counterexample :
    get_all_details transportFailsOn2 twoStubs =
      Except.error "httpx.ConnectError: all retries exhausted" := rfl

/-- Claim C4 (amended): when every stub has a truthy `id` and its fetch
yields an HTTP response with a JSON body --- regardless of status, so
non-2xx soft failures are still counted --- the bulk fetch returns
exactly one result per input stub; a transport-level failure instead
aborts the batch with an exception. -/
theorem C4_bulk_fetch_amended (fetch : String → FetchOutcome)
    (devices : List JValue)
    (h : ∀ d ∈ devices, jTruthy (stubGetId d) = true ∧
      ∃ r j, fetch (detail_url (stubGetId d)) = FetchOutcome.resp r ∧
        r.json = Except.ok j) :
    ∃ results, get_all_details fetch devices = Except.ok results ∧
      results.length = devices.length := by
  unfold get_all_details
  apply mapExcept_ok_of_forall
  intro d hd
  rcases h d hd with ⟨hid, r, j, hr, hj⟩
  refine ⟨j, ?_⟩
  simp only [get_details_async]
  rw [hid, hr]
  simpa using hj

theorem C4_bulk_fetch_amended_witness :
    ∃ results, get_all_details softFailOn2 twoStubs = Except.ok results ∧
      results.length = 2 := by
  apply C4_bulk_fetch_amended softFailOn2 twoStubs
  intro d hd
  simp only [twoStubs, List.mem_cons, List.not_mem_nil, or_false] at hd
  rcases hd with h | h
  · subst h
    exact ⟨rfl, ⟨200, Except.ok (.obj [("id", .num 1), ("name", .str "a")]), ""⟩,
           .obj [("id", .num 1), ("name", .str "a")], rfl, rfl⟩
  · subst h
    exact ⟨rfl, ⟨500, Except.ok (.obj [("httpStatus", .num 500)]), ""⟩,
           .obj [("httpStatus", .num 500)], rfl, rfl⟩

/-- Claim C5: `device(device_id, detail)` returns `None` for every
response with status at least 400 (soft not-found, no exception) and the
parsed record for every response with status below 400. -/
theorem C5_device_soft404 (fetch : String → HttpResponse)
    (device_id : String) (detail : Bool) :
    (400 ≤ (fetch (device_url device_id detail)).status →
      device fetch device_id detail = Except.ok none) ∧
    (∀ j, (fetch (device_url device_id detail)).status < 400 →
      (fetch (device_url device_id detail)).json = Except.ok j →
      device fetch device_id detail = Except.ok (some j)) := by
  constructor
  · intro h
    simp only [device]
    rw [if_neg (by omega)]
  · intro j h hj
    simp only [device]
    rw [if_pos h, hj]
    rfl

theorem C5_device_soft404_witness :
    device (fun _ => ⟨404, Except.error "not json", "Not Found"⟩) "1" false =
      Except.ok none ∧
    device (fun _ => ⟨200, Except.ok (.obj [("id", .num 1)]), ""⟩) "1" true =
      Except.ok (some (.obj [("id", .num 1)])) :=
  ⟨(C5_device_soft404 _ "1" false).1 (by decide),
   (C5_device_soft404 _ "1" true).2 _ (by decide) rfl⟩

/-- Claim C6 (code observation): on a success status, `invalidate`
deletes the `Accept` header --- not the bearer `Authorization` header ---
and removes the token and expiry attributes outright, so the resulting
state still carries the bearer header and differs from a freshly
constructed session. -/
theorem C6_invalidate_clears_wrong_header :
    invalidate authedSession 0 200 =
      Except.ok ⟨true, { token := .absent, auth_expiration := .absent,
                         headers := [("Authorization", "Bearer t")] }, 1⟩ ∧
    ({ token := .absent, auth_expiration := .absent,
       headers := [("Authorization", "Bearer t")] } : Session) ≠ freshSession :=
  ⟨rfl, by decide⟩

/-- Claim C7: adding a device whose serial number is already in the
prestage's current serial list returns success with zero
`update_prestage_scope` calls. -/
theorem C7_add_already_scoped (device_id serial_number : JValue)
    (device_result : Option JValue) (scope_payload : JValue)
    (update_status : Nat) (serial : JValue) (current_serials : List JValue)
    (version_lock : JValue)
    (hres : resolve_prestage_serial device_id serial_number device_result =
      .ok serial)
    (hscope : get_prestage_serials_and_vlock scope_payload =
      .ok (current_serials, version_lock))
    (hmem : current_serials.any (fun c => pyEqJ c serial) = true) :
    add_device_to_prestage device_id serial_number device_result scope_payload
      update_status = .ok (true, []) := by
  unfold add_device_to_prestage
  rw [hres]
  dsimp only
  rw [hscope]
  dsimp only
  rw [if_pos hmem]

theorem C7_add_already_scoped_witness :
    add_device_to_prestage JValue.null (.str "C02XYZ") none
      (.obj [("assignments", .arr [.obj [("serialNumber", .str "C02XYZ")]]),
             ("versionLock", .num 3)]) 200 = Except.ok (true, []) :=
  C7_add_already_scoped _ _ _ _ _ (.str "C02XYZ") [.str "C02XYZ"] (.num 3)
    rfl rfl rfl

/-- Claim C8: `wipe_device` returns the response text exactly on HTTP
201 and the sentinel failure string on every other status, never
raising. -/
theorem C8_wipe_device_contract (cr : HttpResponse) :
    (cr.status = 201 → wipe_device cr = cr.text) ∧
    (cr.status ≠ 201 → wipe_device cr = "Unable to wipe device") := by
  constructor <;> intro h <;> simp [wipe_device, h]

theorem C8_wipe_device_contract_witness :
    wipe_device ⟨201, Except.error "xml body", "<xml/>"⟩ = "<xml/>" ∧
    wipe_device ⟨409, Except.error "xml body", "conflict"⟩ =
      "Unable to wipe device" :=
  ⟨(C8_wipe_device_contract _).1 rfl, (C8_wipe_device_contract _).2 (by decide)⟩

/-- Claim C9: the URL requested by `get_configuration_profile` does not
depend on the `configuration_profile_id` argument and ends with the
literal text of the never-interpolated placeholder. -/
theorem C9_profile_url_constant (jamf_server : String) (id1 id2 : Int) :
    get_configuration_profile_url jamf_server id1 =
      get_configuration_profile_url jamf_server id2 ∧
    ∃ p, get_configuration_profile_url jamf_server id1 =
      p ++ "{configuration_profile_id}" :=
  ⟨rfl, ⟨jamf_server ++ "JSSResource/mobiledeviceconfigurationprofiles/id/", rfl⟩⟩

/-- Claim C10: calling `remove_device_from_prestage` with a (truthy)
serial number and no device id raises `AttributeError` --- the class
defines no `search_devices` method --- before any prestage read or
write: the request trace is empty. -/
theorem C10_remove_serial_only_raises (serial_number : JValue)
    (device_detail_result device_result : Option JValue)
    (global_scope_payload prestage_scope_payload : JValue)
    (update_status : Nat) (hser : jTruthy serial_number = true) :
    remove_device_from_prestage JValue.null serial_number device_detail_result
      device_result global_scope_payload prestage_scope_payload update_status =
      (Except.error "AttributeError: PCJAMF object has no attribute search_devices",
       []) := by
  unfold remove_device_from_prestage
  rw [show jTruthy JValue.null = false from rfl, hser]
  simp [PCJAMF_method_names]

theorem C10_remove_serial_only_raises_witness :
    remove_device_from_prestage JValue.null (.str "C02XYZ") none none
      JValue.null JValue.null 200 =
      (Except.error "AttributeError: PCJAMF object has no attribute search_devices",
       []) :=
  C10_remove_serial_only_raises (.str "C02XYZ") none none JValue.null
    JValue.null 200 rfl

end PCJamf
